import Mathlib

/-!
Verification development for the PhiFlow fluid core
(src/phi/physics/fluid.py and src/phi/physics/sdfliquid.py).

Grids are shallowly embedded as value functions over integer lattice points
together with a resolution and an extrapolation policy.  Pure elementwise and
stencil arithmetic from the source is translated to exact arithmetic over the
rationals (for the pressure/Laplacian and mask code) and over the reals (for
the SDF redistancing code, whose neighbor offsets have irrational Euclidean
lengths).  Grid operators that live in out-of-scope modules of the repository
(phi.field, phi.math, gridliquid.py) are either taken as explicit function
parameters or are modelled from the specification; each such definition says
so in its doc comment.
-/

-- ===================== Definitions =====================

-- ----- fluid.py: masked Laplacian (lines 54-77) -----

/-- Boundary extrapolation policy of a grid.  The pressure-projection code
uses exactly the zero and periodic policies (fluid.py lines 30-32). -/
inductive Extrap where
  | zero : Extrap
  | periodic : Extrap
  deriving DecidableEq

/-- Modelled from the spec: `Extrapolation.gradient()` (phi.math, not under
src/) maps a policy to the policy of the differentiated field; a constant
(zero) policy stays zero and a periodic policy stays periodic.  No claim
inspects the extrapolation of the Laplacian output. -/
def Extrap.gradient : Extrap → Extrap
  | .zero => .zero
  | .periodic => .periodic

/-- A cell-centered scalar grid: per-axis resolution, cell data indexed by
integer lattice points, and an extrapolation policy for ghost cells. -/
structure CGrid (d : ℕ) where
  res : Fin d → ℕ
  data : (Fin d → ℤ) → ℚ
  ext : Extrap

/-- Index is inside the grid bounds on every axis. -/
def inB (d : ℕ) (res : Fin d → ℕ) (x : Fin d → ℤ) : Prop :=
  ∀ i : Fin d, 0 ≤ x i ∧ x i < (res i : ℤ)

instance inB.inst (d : ℕ) (res : Fin d → ℕ) (x : Fin d → ℤ) : Decidable (inB d res x) :=
  inferInstanceAs (Decidable (∀ i : Fin d, 0 ≤ x i ∧ x i < (res i : ℤ)))

/-- Shift an index by `δ` along axis `i`. -/
def shiftIdx (d : ℕ) (i : Fin d) (δ : ℤ) (x : Fin d → ℤ) : Fin d → ℤ :=
  fun j => if j = i then x j + δ else x j

/-- Modelled from the spec: `field.pad(g, 1).data` (phi.field, not under src/)
reads a grid value with one ghost cell drawn from the grid's extrapolation
policy: zero extrapolation yields 0 outside the bounds, periodic
extrapolation wraps the index. -/
def CGrid.padVal {d : ℕ} (g : CGrid d) (x : Fin d → ℤ) : ℚ :=
  match g.ext with
  | .zero => if inB d g.res x then g.data x else 0
  | .periodic => g.data fun i => x i % (g.res i : ℤ)

/-- Embeds `masked_laplace` (fluid.py lines 54-77).  The padded
active/accessible/pressure arrays are read through `CGrid.padVal`; for each
spatial axis the lower/upper shifts of `_multi_roll` (phi/math/_helper.py,
outside src/, modelled as the one-cell lower/upper neighbor reads its
call-site names and the spec's stencil description give) contribute
`center + upper + lower`, where per the source
`center = (-lower_accessible - upper_accessible) * pressure.data`,
`upper = upper_active_pressure * active.data` and
`lower = lower_active_pressure * active.data`, with
`active_pressure = extended_active_mask * extended_pressure`. -/
def masked_laplace {d : ℕ} (pressure active accessible : CGrid d) : CGrid d :=
  { res := pressure.res
    data := fun x => ∑ i : Fin d,
      ((-accessible.padVal (shiftIdx d i (-1) x) - accessible.padVal (shiftIdx d i 1 x))
          * pressure.data x
        + active.padVal (shiftIdx d i 1 x) * pressure.padVal (shiftIdx d i 1 x)
          * active.data x
        + active.padVal (shiftIdx d i (-1) x) * pressure.padVal (shiftIdx d i (-1) x)
          * active.data x)
    ext := pressure.ext.gradient }

/-- The stencil value exactly as §4.1 of the spec words it, for comparison
with `masked_laplace`:
`L = Σ_axis [ -(M_lower+M_upper)·p + M_lower·A_lower·p_lower + M_upper·A_upper·p_upper ]`. -/
def spec_masked_laplace_data {d : ℕ} (pressure active accessible : CGrid d)
    (x : Fin d → ℤ) : ℚ :=
  ∑ i : Fin d,
    (-(accessible.padVal (shiftIdx d i (-1) x) + accessible.padVal (shiftIdx d i 1 x))
        * pressure.data x
      + accessible.padVal (shiftIdx d i (-1) x) * active.padVal (shiftIdx d i (-1) x)
        * pressure.padVal (shiftIdx d i (-1) x)
      + accessible.padVal (shiftIdx d i 1 x) * active.padVal (shiftIdx d i 1 x)
        * pressure.padVal (shiftIdx d i 1 x))

/-- The per-axis stencil the source actually computes at interior cells,
written on raw (unpadded) data: the neighbor contributions are weighted by
the active mask at the center cell, and accessibility only enters the center
coefficient. -/
def interior_stencil_data {d : ℕ} (pressure active accessible : CGrid d)
    (x : Fin d → ℤ) : ℚ :=
  ∑ i : Fin d,
    ((-accessible.data (shiftIdx d i (-1) x) - accessible.data (shiftIdx d i 1 x))
        * pressure.data x
      + active.data (shiftIdx d i 1 x) * pressure.data (shiftIdx d i 1 x)
        * active.data x
      + active.data (shiftIdx d i (-1) x) * pressure.data (shiftIdx d i (-1) x)
        * active.data x)

/-- A spatially constant zero-extrapolated grid. -/
def const_grid (d : ℕ) (res : Fin d → ℕ) (c : ℚ) : CGrid d :=
  { res := res, data := fun _ => c, ext := Extrap.zero }

/-- Concrete 1-D pressure field (resolution 3, values 0,0,5). -/
def pC1 : CGrid 1 :=
  { res := fun _ => 3, data := fun x => if x 0 = 2 then 5 else 0, ext := Extrap.zero }

/-- Concrete 1-D active mask (inactive at the center cell only). -/
def aC1 : CGrid 1 :=
  { res := fun _ => 3, data := fun x => if x 0 = 1 then 0 else 1, ext := Extrap.zero }

/-- Concrete 1-D accessible mask (all accessible). -/
def mC1 : CGrid 1 :=
  { res := fun _ => 3, data := fun _ => 1, ext := Extrap.zero }

/-- The interior cell of the 1-D counterexample grids. -/
def xC1 : Fin 1 → ℤ := fun _ => 1

-- ----- fluid.py: divergence_free (lines 19-51) -----

/-- The external collaborators `divergence_free` consumes, as fixed function
values: the staggered accessible-mask product used for hard boundary
conditions (fluid.py lines 34-35), the per-obstacle rigid-body velocity
blends (lines 36-40), and the field divergence, conjugate-gradient solver and
staggered gradient (lines 42-48), all of which live outside src/.  Velocity
and pressure grids are flattened to rational value lists. -/
structure SolveOps where
  hard_bcs : List ℚ
  obstacle_blend : List (List ℚ → List ℚ)
  divergence : List ℚ → List ℚ
  conjugate_gradient : List ℚ → List Bool × List ℚ × ℕ
  staggered_gradient : List ℚ → List ℚ

/-- Embeds `math.all` on the per-batch-element convergence flags
(fluid.py line 46). -/
def math_all (l : List Bool) : Bool := l.all fun b => b

/-- Elementwise product of two flattened grids (`velocity *= hard_bcs`). -/
def elemMul (a b : List ℚ) : List ℚ := List.zipWith (fun u v => u * v) a b

/-- Elementwise difference of two flattened grids (`velocity -= gradp`). -/
def elemSub (a b : List ℚ) : List ℚ := List.zipWith (fun u v => u - v) a b

/-- Elementwise sum of two flattened grids (`velocity += ...`). -/
def elemAdd (a b : List ℚ) : List ℚ := List.zipWith (fun u v => u + v) a b

/-- Embeds `divergence_free` (fluid.py lines 19-51): apply the hard boundary
mask, blend obstacle velocities, take the divergence as the right-hand side,
run the conjugate-gradient solve, raise `ValueError('pressure solve did not
converge')` unless `math.all(converged)`, otherwise subtract the masked
pressure gradient and return the velocity with the diagnostics keys.  The
diagnostics dict is modelled by its keys. -/
def divergence_free (ops : SolveOps) (velocity : List ℚ) :
    Except String (List ℚ × List String) :=
  let velocity2 := elemMul velocity ops.hard_bcs
  let velocity3 := ops.obstacle_blend.foldl (fun v f => f v) velocity2
  let divergence_field := ops.divergence velocity3
  let result := ops.conjugate_gradient divergence_field
  if math_all result.1 = true then
    Except.ok
      (elemSub velocity3 (elemMul (ops.staggered_gradient result.2.1) ops.hard_bcs),
       ["pressure", "iterations", "divergence"])
  else Except.error "pressure solve did not converge"

/-- Concrete solver collaborators whose conjugate gradient reports one
unconverged batch element. -/
def opsC2 : SolveOps :=
  { hard_bcs := []
    obstacle_blend := []
    divergence := fun v => v
    conjugate_gradient := fun _ => ([true, false], [], 7)
    staggered_gradient := fun v => v }

-- ----- fluid.py: IncompressibleFlow.step (lines 123-163) -----

/-- Gas-fluid state as `IncompressibleFlow.step` reads and writes it:
density and velocity as flattened rational grids, the buoyancy factor, the
age, and the solve-diagnostics dict modelled by its keys. -/
structure FluidState where
  density : List ℚ
  velocity : List ℚ
  buoyancy_factor : ℚ
  age : ℚ
  solve_info : List String
  deriving DecidableEq

/-- Total of a flattened density grid (`math.sum` over all cells). -/
def total (f : List ℚ) : ℚ := f.sum

/-- Modelled from the spec: `CenteredGrid.normalized(target)` (phi.field, not
under src/) rescales the field so its total matches the total of the target
field. -/
def normalized (f target : List ℚ) : List ℚ :=
  f.map fun v => v * (total target / total f)

/-- The external collaborators `IncompressibleFlow.step` consumes as fixed
function values: semi-Lagrangian advection, the divergence-free projection
with diagnostics, and resampling of a centered field onto the staggered
velocity sample points (`.at(velocity)`), all outside the stepper itself. -/
structure StepOps where
  advect : List ℚ → List ℚ → ℚ → List ℚ
  project : List ℚ → Except String (List ℚ × List String)
  resample_at : List ℚ → List ℚ → List ℚ

/-- Embeds `IncompressibleFlow.step` (fluid.py lines 139-163).  The Python
local `solve_info` is only bound inside the two optional projection branches;
its possibly-unbound status is modelled with `Option`, and reading it while
unbound (the Python `UnboundLocalError`) is the error case of the result. -/
def IncompressibleFlow_step (ops : StepOps)
    (make_input_divfree make_output_divfree conserve_density : Bool)
    (fluid : FluidState) (dt : ℚ) (boundaries_solid : List Bool) (gravity : ℚ)
    (density_effects velocity_effects : List (List ℚ → ℚ → List ℚ)) :
    Except String FluidState :=
  let velocity0 := fluid.velocity
  let density0 := fluid.density
  let step1 : Except String (List ℚ × Option (List String)) :=
    if make_input_divfree then
      match ops.project velocity0 with
      | Except.error e => Except.error e
      | Except.ok (v, si) => Except.ok (v, some si)
    else Except.ok (velocity0, none)
  match step1 with
  | Except.error e => Except.error e
  | Except.ok (velocity1, solve_info1) =>
    let density1 := ops.advect density0 velocity1 dt
    let advected_velocity := ops.advect velocity1 velocity1 dt
    let density2 :=
      if conserve_density && boundaries_solid.all (fun b => b) then
        normalized density1 fluid.density
      else density1
    let density3 := density_effects.foldl (fun f e => e f dt) density2
    let velocity2 := velocity_effects.foldl (fun v e => e v dt) advected_velocity
    let velocity3 :=
      elemAdd velocity2
        (ops.resample_at
          (density3.map fun v => v * (-gravity) * fluid.buoyancy_factor * dt)
          velocity2)
    let step2 : Except String (List ℚ × Option (List String)) :=
      if make_output_divfree then
        match ops.project velocity3 with
        | Except.error e => Except.error e
        | Except.ok (v, si) => Except.ok (v, some si)
      else Except.ok (velocity3, solve_info1)
    match step2 with
    | Except.error e => Except.error e
    | Except.ok (velocity4, solve_info2) =>
      match solve_info2 with
      | none =>
        Except.error "UnboundLocalError: local variable solve_info referenced before assignment"
      | some si =>
        Except.ok
          { density := density3
            velocity := velocity4
            buoyancy_factor := fluid.buoyancy_factor
            age := fluid.age + dt
            solve_info := si ++ ["advected_velocity", "divergent_velocity"] }

/-- Concrete step collaborators that leave fields unchanged and always report
a converged projection. -/
def opsC6 : StepOps :=
  { advect := fun f _ _ => f
    project := fun v => Except.ok (v, ["pressure"])
    resample_at := fun _ _ => [] }

/-- Concrete pre-step fluid state with density total 2. -/
def fluidC6 : FluidState :=
  { density := [2], velocity := [0], buoyancy_factor := 0, age := 0, solve_info := [] }

/-- The state one step of `opsC6` produces from `fluidC6` in a closed domain
with density conservation. -/
def stateC6 : FluidState :=
  { density := [2], velocity := [], buoyancy_factor := 0, age := 1,
    solve_info := ["pressure", "advected_velocity", "divergent_velocity"] }

/-- Concrete step collaborators for the input-projection-only run. -/
def opsC10 : StepOps :=
  { advect := fun f _ _ => f
    project := fun v => Except.ok (v, [])
    resample_at := fun _ _ => [] }

/-- Concrete pre-step fluid state for the input-projection-only run. -/
def fluidC10 : FluidState :=
  { density := [1], velocity := [1], buoyancy_factor := 0, age := 0, solve_info := [] }

/-- The state one step of `opsC10` produces from `fluidC10` with only the
input projection enabled. -/
def stateC10 : FluidState :=
  { density := [1], velocity := [], buoyancy_factor := 0, age := 1,
    solve_info := ["advected_velocity", "divergent_velocity"] }

-- ----- sdfliquid.py: SDFLiquidPhysics.update_active_mask (lines 70-85) -----

/-- Modelled from the spec: `create_binary_mask` (gridliquid.py, code of this
repository that is not under src/) turns a grid into a 0/1 mask, 1 where the
value exceeds the threshold.  The spec only uses it for "the mask union with
any inflow introduced by effects"; the threshold value (0.5 here) does not
matter for any claim because a zero inflow grid maps to the zero mask for
every nonnegative threshold. -/
def create_binary_mask {ι : Type} (grid : ι → ℚ) (threshold : ℚ) : ι → ℚ :=
  fun x => if threshold < grid x then 1 else 0

/-- Embeds the mask-union expression of sdfliquid.py line 83:
`active_mask + inflow_mask - active_mask * inflow_mask`. -/
def mask_union (a b : ℚ) : ℚ := a + b - a * b

/-- Embeds `SDFLiquidPhysics.update_active_mask` (sdfliquid.py lines 70-85):
threshold the signed-distance field at `0.5*dx` with `dx = 1.0`, build the
inflow grid by applying the effects to a zero grid, binarize it, and union
the two masks with `a + b - a*b`.  Cells are an abstract index type; effects
are the external `effect_applied` collaborators. -/
def update_active_mask {ι : Type} (sdf : ι → ℚ)
    (effects : List ((ι → ℚ) → ℚ → (ι → ℚ))) (dt : ℚ) : ι → ℚ :=
  let dx : ℚ := 1.0
  let active_mask : ι → ℚ := fun x => if sdf x < 0.5 * dx then 1 else 0
  let inflow_grid : ι → ℚ := effects.foldl (fun g e => e g dt) fun _ => 0
  let inflow_mask := create_binary_mask inflow_grid 0.5
  fun x => mask_union (active_mask x) (inflow_mask x)

-- ----- sdfliquid.py: recompute_sdf (lines 157-205) -----

open scoped Classical

/-- All neighbor offsets `itertools.product((-1,0,1), repeat r)` of
sdfliquid.py lines 175-177, leftmost axis slowest, as lists of length `r`. -/
def directions : ℕ → List (List ℤ)
  | 0 => [[]]
  | n + 1 =>
    ((directions n).map fun t => -1 :: t)
      ++ ((directions n).map fun t => 0 :: t)
      ++ ((directions n).map fun t => 1 :: t)

/-- Clamp an index to `[0, n-1]`; this is what reading a one-cell
symmetric-padded array after the shift slice of sdfliquid.py lines 187-190
does to each coordinate for offsets in `{-1,0,1}`. -/
def clampIdx (n : ℕ) (j : ℤ) : ℤ :=
  if j < 0 then 0 else if (n : ℤ) - 1 < j then (n : ℤ) - 1 else j

/-- The shifted pre-sweep snapshot read of sdfliquid.py lines 187-190: the
value of `s` at the neighbor `x - d`, coordinates clamped at the borders by
the symmetric padding. -/
noncomputable def shiftRead (res : List ℕ) (s : List ℤ → ℝ) (d x : List ℤ) : ℝ :=
  s (List.zipWith (fun (n : ℕ) (j : ℤ) => clampIdx n j) res
      (List.zipWith (fun xi di => xi - di) x d))

/-- The candidate distance of sdfliquid.py line 191: the shifted snapshot
value plus `dx * np.sqrt(d.dot(d)) * signs`. -/
noncomputable def sweep_candidate (res : List ℕ) (sg : List ℤ → ℝ) (dx : ℝ)
    (s : List ℤ → ℝ) (d x : List ℤ) : ℝ :=
  shiftRead res s d x + dx * Real.sqrt ((d.map fun z => ((z : ℝ)) ^ 2).sum) * sg x

/-- One offset update of the relaxation sweep (sdfliquid.py lines 182-195):
skip the all-zero offset, otherwise accept the candidate into the buffer
wherever its absolute value beats the buffered one and the cell is not in the
surface band (`surface_mask <= 0`). -/
noncomputable def sdf_sweep_step (res : List ℕ) (sm sg : List ℤ → ℝ) (dx : ℝ)
    (s : List ℤ → ℝ) (buffered : List ℤ → ℝ) (d : List ℤ) : List ℤ → ℝ :=
  if d.all (fun z => z == 0) then buffered
  else fun x =>
    if |sweep_candidate res sg dx s d x| < |buffered x| ∧ sm x ≤ 0 then
      sweep_candidate res sg dx s d x
    else buffered x

/-- One full relaxation sweep (sdfliquid.py lines 180-197): fold the offset
updates over all directions, starting from a copy of the pre-sweep snapshot;
every candidate reads neighbor values from that same snapshot `s`. -/
noncomputable def sdf_sweep (res : List ℕ) (sm sg : List ℤ → ℝ) (dx : ℝ)
    (s : List ℤ → ℝ) : List ℤ → ℝ :=
  (directions res.length).foldl (sdf_sweep_step res sm sg dx s) s

/-- Unit offset along axis `i` of an `r`-axis grid, as a length-`r` list. -/
def unit_offset (r i : ℕ) (v : ℤ) : List ℤ :=
  (List.range r).map fun j => if j = i then v else 0

/-- The positive and negative unit offsets of every axis. -/
def axis_offsets (r : ℕ) : List (List ℤ) :=
  (List.range r).flatMap fun i => [unit_offset r i 1, unit_offset r i (-1)]

/-- Index is inside the bounds of a list-shaped resolution. -/
def inBoundsL (res : List ℕ) (x : List ℤ) : Prop :=
  x.length = res.length ∧ ∀ p ∈ List.zip res x, 0 ≤ p.2 ∧ p.2 < (p.1 : ℤ)

instance inBoundsL.inst (res : List ℕ) (x : List ℤ) : Decidable (inBoundsL res x) :=
  inferInstanceAs
    (Decidable (x.length = res.length ∧ ∀ p ∈ List.zip res x, 0 ≤ p.2 ∧ p.2 < (p.1 : ℤ)))

/-- Modelled from the spec: `create_surface_mask` (gridliquid.py, code of
this repository that is not under src/) marks with 1.0 the surface band,
"cells where the active mask disagrees with at least one grid neighbor", and
0.0 elsewhere; neighbors are the in-bounds axis neighbors. -/
noncomputable def create_surface_mask (res : List ℕ) (active_mask : List ℤ → ℝ) :
    List ℤ → ℝ :=
  fun x =>
    if ∃ d ∈ axis_offsets res.length,
        inBoundsL res (List.zipWith (fun a b => a + b) x d)
          ∧ active_mask (List.zipWith (fun a b => a + b) x d) ≠ active_mask x
    then 1 else 0

/-- The sign field of sdfliquid.py line 164: `-1 * (2*active_mask - 1)`,
negative inside the fluid. -/
noncomputable def sdf_signs (active_mask : List ℤ → ℝ) : List ℤ → ℝ :=
  fun x => -1 * (2 * active_mask x - 1)

/-- Embeds the working-field initialization of sdfliquid.py lines 163-172:
surface-band cells keep the old SDF value except that a cell active under the
new mask whose old value is at least `0.5*dx` is reset to `-0.0*dx`; non-band
cells start at `2.0*(distance+1)*signs`. -/
noncomputable def sdf_init (dx : ℝ) (distance : ℕ) (active_mask sdf0 : List ℤ → ℝ)
    (res : List ℕ) : List ℤ → ℝ :=
  fun x =>
    if 1 ≤ create_surface_mask res active_mask x then
      if 1 ≤ active_mask x ∧ 0.5 * dx ≤ sdf0 x then -0.0 * dx else sdf0 x
    else 2.0 * ((distance : ℝ) + 1) * sdf_signs active_mask x

/-- Embeds the clipping of sdfliquid.py lines 199-200: keep values whose
magnitude is below `distance`, otherwise take
`distance_limit = -distance * (2*active_mask - 1)`. -/
noncomputable def sdf_clip (distance : ℕ) (active_mask : List ℤ → ℝ)
    (s : List ℤ → ℝ) : List ℤ → ℝ :=
  fun x =>
    if |s x| < (distance : ℝ) then s x
    else -(distance : ℝ) * (2 * active_mask x - 1)

/-- Embeds `math.max(math.abs(velocity.staggered_tensor()))` of sdfliquid.py
line 203 on the flattened staggered velocity tensor. -/
noncomputable def maxAbs (v : List ℝ) : ℝ := (v.map fun a => |a|).foldr max 0

/-- Embeds the dissipation of sdfliquid.py line 203:
`s_distance -= dt * math.max(math.abs(velocity.staggered_tensor())) * 0.01`. -/
noncomputable def sdf_dissipation (dt : ℝ) (velocity : List ℝ)
    (s : List ℤ → ℝ) : List ℤ → ℝ :=
  fun x => s x - dt * maxAbs velocity * 0.01

/-- Embeds `recompute_sdf` (sdfliquid.py lines 157-205): initialize the
working field, run exactly `distance` relaxation sweeps, clip the magnitude
to `distance`, and subtract the uniform dissipation term. -/
noncomputable def recompute_sdf (res : List ℕ) (sdf0 active_mask : List ℤ → ℝ)
    (velocity : List ℝ) (distance : ℕ) (dt dx : ℝ) : List ℤ → ℝ :=
  sdf_dissipation dt velocity
    (sdf_clip distance active_mask
      ((sdf_sweep res (create_surface_mask res active_mask)
          (sdf_signs active_mask) dx)^[distance]
        (sdf_init dx distance active_mask sdf0 res)))

/-- Concrete active mask on a 1-D two-cell grid: active in cell 0 only, so
both cells are in the surface band. -/
noncomputable def aC4 : List ℤ → ℝ := fun x => if x = [0] then 1 else 0

/-- Concrete old SDF values for the initialization witness. -/
noncomputable def sdfC4 : List ℤ → ℝ := fun _ => 3

-- ===================== Theorems =====================

/-- At an in-bounds index, reading through the padding is reading the data. -/
theorem padVal_eq_data {d : ℕ} (g : CGrid d) (x : Fin d → ℤ) (h : inB d g.res x) :
    g.padVal x = g.data x := by
  have h2 : (fun i => x i % (g.res i : ℤ)) = x := by
    funext i
    exact Int.emod_eq_of_lt (h i).1 (h i).2
  unfold CGrid.padVal
  cases g.ext
  · simp [h]
  · show g.data (fun i => x i % (g.res i : ℤ)) = g.data x
    rw [h2]

/-- Claim C1, counterexample: at the interior cell of a 1-D, resolution-3
grid whose center cell is inactive, with all faces accessible and an upper
neighbor pressure of 5, the masked Laplacian computed by the source differs
from the stencil stated in the spec (0 versus 5), because the source weights
the neighbor contributions with the active mask at the center cell rather
than the accessible mask at the face. -/
theorem masked_laplace_spec_stencil_refuted :
    (masked_laplace pC1 aC1 mC1).data xC1 ≠ spec_masked_laplace_data pC1 aC1 mC1 xC1 := by
  have hcode : (masked_laplace pC1 aC1 mC1).data xC1 = 0 := by
    unfold masked_laplace
    dsimp only
    rw [Fin.sum_univ_one]
    norm_num [pC1, aC1, mC1, xC1, CGrid.padVal, shiftIdx, inB, Fin.forall_fin_one]
  have hspec : spec_masked_laplace_data pC1 aC1 mC1 xC1 = 5 := by
    unfold spec_masked_laplace_data
    rw [Fin.sum_univ_one]
    norm_num [pC1, aC1, mC1, xC1, CGrid.padVal, shiftIdx, inB, Fin.forall_fin_one]
  rw [hcode, hspec]
  norm_num

/-- Claim C1 (amended): for grids of identical resolution, at every interior
cell the masked Laplacian is, per spatial axis, the center term
`-(M_lower+M_upper)·p` plus neighbor terms `A_upper·p_upper·A_center` and
`A_lower·p_lower·A_center`: the off-diagonal weights are suppressed unless
both the neighbor and the center cell are active, and accessibility enters
only the center coefficient. -/
theorem masked_laplace_interior_stencil {d : ℕ} (p a m : CGrid d)
    (ha : a.res = p.res) (hm : m.res = p.res) (x : Fin d → ℤ)
    (hint : ∀ i : Fin d, inB d p.res (shiftIdx d i (-1) x) ∧ inB d p.res (shiftIdx d i 1 x)) :
    (masked_laplace p a m).data x = interior_stencil_data p a m x := by
  unfold masked_laplace interior_stencil_data
  dsimp only
  refine Finset.sum_congr rfl fun i _ => ?_
  rw [padVal_eq_data a _ (by rw [ha]; exact (hint i).2),
      padVal_eq_data a _ (by rw [ha]; exact (hint i).1),
      padVal_eq_data m _ (by rw [hm]; exact (hint i).1),
      padVal_eq_data m _ (by rw [hm]; exact (hint i).2),
      padVal_eq_data p _ (hint i).2, padVal_eq_data p _ (hint i).1]

/-- Witness for the amended claim C1 at the interior cell of the concrete
1-D grids. -/
theorem masked_laplace_interior_stencil_witness :
    (masked_laplace pC1 aC1 mC1).data xC1 = interior_stencil_data pC1 aC1 mC1 xC1 :=
  masked_laplace_interior_stencil pC1 aC1 mC1 rfl rfl xC1 (by decide)

/-- Claim C7: the masked Laplacian of a spatially constant field with
all-ones active and accessible masks and zero boundary extrapolation is zero
at every cell of the grid, boundary cells included. -/
theorem masked_laplace_const_field_zero (d : ℕ) (res : Fin d → ℕ) (c : ℚ)
    (x : Fin d → ℤ) (hx : inB d res x) :
    (masked_laplace (const_grid d res c) (const_grid d res 1) (const_grid d res 1)).data x
      = 0 := by
  clear hx
  unfold masked_laplace
  dsimp only
  refine Finset.sum_eq_zero fun i _ => ?_
  by_cases hlo : inB d res (shiftIdx d i (-1) x) <;>
    by_cases hhi : inB d res (shiftIdx d i 1 x) <;>
      simp [const_grid, CGrid.padVal, hlo, hhi] <;> ring

/-- Witness for claim C7 at the boundary cell of a concrete 1-D grid of
resolution 4 and constant value 7. -/
theorem masked_laplace_const_field_zero_witness :
    (masked_laplace (const_grid 1 (fun _ => 4) 7) (const_grid 1 (fun _ => 4) 1)
        (const_grid 1 (fun _ => 4) 1)).data (fun _ => 0) = 0 :=
  masked_laplace_const_field_zero 1 (fun _ => 4) 7 (fun _ => 0) (by decide)

/-- Claim C2: if the conjugate-gradient solve reports any unconverged batch
element, `divergence_free` raises the convergence error synchronously and
returns no velocity; `math.all` makes the solve as a whole count as converged
exactly when every batch element has converged, and a velocity is returned
only in that case. -/
theorem divergence_free_unconverged_raises :
    (∀ (ops : SolveOps) (velocity : List ℚ),
        math_all (ops.conjugate_gradient (ops.divergence
            (ops.obstacle_blend.foldl (fun v f => f v) (elemMul velocity ops.hard_bcs)))).1
          = false →
        divergence_free ops velocity = Except.error "pressure solve did not converge")
  ∧ (∀ l : List Bool, math_all l = true ↔ ∀ b ∈ l, b = true)
  ∧ (∀ (ops : SolveOps) (velocity : List ℚ) (out : List ℚ × List String),
        divergence_free ops velocity = Except.ok out →
        math_all (ops.conjugate_gradient (ops.divergence
            (ops.obstacle_blend.foldl (fun v f => f v) (elemMul velocity ops.hard_bcs)))).1
          = true) := by
  refine ⟨?_, ?_, ?_⟩
  · intro ops velocity h
    simp only [divergence_free]
    rw [h]
    simp
  · intro l
    simp [math_all, List.all_eq_true]
  · intro ops velocity out h
    simp only [divergence_free] at h
    split at h
    next hc => exact hc
    next hc => exact absurd h (by simp)

/-- Witness for claim C2 with a conjugate gradient reporting one unconverged
batch element. -/
theorem divergence_free_unconverged_raises_witness :
    math_all [true, false] = false
      ∧ divergence_free opsC2 [] = Except.error "pressure solve did not converge" :=
  ⟨by decide, divergence_free_unconverged_raises.1 opsC2 [] (by decide)⟩

/-- Claim C6: rescaling by `normalized` restores the pre-advection total, and
a step with all boundaries solid, `conserve_density` enabled and no density
effects returns a state whose density total equals the pre-step total. -/
theorem step_closed_domain_conserves_total :
    (∀ f target : List ℚ, total f ≠ 0 → total (normalized f target) = total target)
  ∧ (∀ (ops : StepOps) (mo : Bool) (fluid : FluidState) (dt : ℚ)
        (boundaries_solid : List Bool) (gravity : ℚ)
        (velocity_effects : List (List ℚ → ℚ → List ℚ)) (s : FluidState),
        boundaries_solid.all (fun b => b) = true →
        total (ops.advect fluid.density fluid.velocity dt) ≠ 0 →
        IncompressibleFlow_step ops false mo true fluid dt boundaries_solid gravity
            [] velocity_effects = Except.ok s →
        total s.density = total fluid.density) := by
  have hmul : ∀ (l : List ℚ) (c : ℚ), (l.map fun v => v * c).sum = l.sum * c := by
    intro l c
    induction l with
    | nil => simp
    | cons a t ih => simp [ih, add_mul]
  have h1 : ∀ f target : List ℚ, total f ≠ 0 → total (normalized f target) = total target := by
    intro f target hf
    unfold normalized total at *
    rw [hmul, mul_comm, div_mul_cancel₀ _ hf]
  refine ⟨h1, ?_⟩
  intro ops mo fluid dt bs g veff s hb hnz hstep
  simp only [IncompressibleFlow_step, Bool.false_eq_true, if_false, List.foldl_nil] at hstep
  rw [hb] at hstep
  simp only [Bool.and_self, if_true] at hstep
  cases mo with
  | false =>
    simp only [Bool.false_eq_true, if_false] at hstep
    exact absurd hstep (by simp)
  | true =>
    simp only [if_true] at hstep
    split at hstep
    · exact absurd hstep (by simp)
    · split at hstep
      · exact absurd hstep (by simp)
      · rw [Except.ok.injEq] at hstep
        rw [← hstep]
        exact h1 _ _ hnz

/-- Witness for claim C6: the concrete closed-domain step conserves the
density total 2. -/
theorem step_closed_domain_conserves_total_witness :
    IncompressibleFlow_step opsC6 false true true fluidC6 1 [true] 0 [] []
        = Except.ok stateC6
      ∧ total stateC6.density = total fluidC6.density := by
  have hstep : IncompressibleFlow_step opsC6 false true true fluidC6 1 [true] 0 [] []
      = Except.ok stateC6 := by
    norm_num [IncompressibleFlow_step, opsC6, fluidC6, stateC6, normalized, total, elemAdd]
  exact ⟨hstep, step_closed_domain_conserves_total.2 opsC6 true fluidC6 1 [true] 0 [] stateC6
    rfl (by norm_num [total, opsC6, fluidC6]) hstep⟩

/-- Claim C10: with both `make_input_divfree` and `make_output_divfree`
disabled, `IncompressibleFlow.step` never completes: recording diagnostics
reads the local `solve_info` that no projection branch ever bound, so the
step fails with the unbound-local error for every input; a step returns a
state only when at least one of the two projections ran. -/
theorem step_without_projection_fails :
    (∀ (ops : StepOps) (conserve : Bool) (fluid : FluidState) (dt : ℚ)
        (boundaries_solid : List Bool) (gravity : ℚ)
        (density_effects velocity_effects : List (List ℚ → ℚ → List ℚ)),
        IncompressibleFlow_step ops false false conserve fluid dt boundaries_solid gravity
            density_effects velocity_effects
          = Except.error
              "UnboundLocalError: local variable solve_info referenced before assignment")
  ∧ (∀ (ops : StepOps) (mi mo conserve : Bool) (fluid : FluidState) (dt : ℚ)
        (boundaries_solid : List Bool) (gravity : ℚ)
        (density_effects velocity_effects : List (List ℚ → ℚ → List ℚ)) (s : FluidState),
        IncompressibleFlow_step ops mi mo conserve fluid dt boundaries_solid gravity
            density_effects velocity_effects = Except.ok s →
        mi = true ∨ mo = true) := by
  have h1 : ∀ (ops : StepOps) (conserve : Bool) (fluid : FluidState) (dt : ℚ)
      (boundaries_solid : List Bool) (gravity : ℚ)
      (density_effects velocity_effects : List (List ℚ → ℚ → List ℚ)),
      IncompressibleFlow_step ops false false conserve fluid dt boundaries_solid gravity
          density_effects velocity_effects
        = Except.error
            "UnboundLocalError: local variable solve_info referenced before assignment" := by
    intro ops conserve fluid dt bs g de ve
    rfl
  refine ⟨h1, ?_⟩
  intro ops mi mo conserve fluid dt bs g de ve s hstep
  cases mi with
  | true => exact Or.inl rfl
  | false =>
    cases mo with
    | true => exact Or.inr rfl
    | false =>
      rw [h1 ops conserve fluid dt bs g de ve] at hstep
      exact absurd hstep (by simp)

/-- Witness for claim C10: a step with only the input projection enabled
completes, and the theorem then certifies that one of the flags is set. -/
theorem step_without_projection_fails_witness :
    IncompressibleFlow_step opsC10 true false false fluidC10 1 [] 0 [] []
        = Except.ok stateC10
      ∧ (true = true ∨ false = true) := by
  have hstep : IncompressibleFlow_step opsC10 true false false fluidC10 1 [] 0 [] []
      = Except.ok stateC10 := by
    norm_num [IncompressibleFlow_step, opsC10, fluidC10, stateC10, elemAdd]
  exact ⟨hstep, step_without_projection_fails.2 opsC10 true false false fluidC10 1 [] 0 [] []
    stateC10 hstep⟩

/-- Claim C8: with no effects — as in the stepper's first mask rebuild — the
rebuilt active mask is 1 exactly where the signed distance is strictly below
`0.5*dx` with `dx = 1.0`, and 0 elsewhere. -/
theorem update_active_mask_threshold :
    ∀ (ι : Type) (sdf : ι → ℚ) (dt : ℚ) (x : ι),
      update_active_mask sdf [] dt x = if sdf x < 0.5 * 1.0 then 1 else 0 := by
  intro ι sdf dt x
  simp only [update_active_mask, mask_union, create_binary_mask, List.foldl_nil]
  norm_num

/-- Claim C9: on mask values in {0,1} the expression `a + b - a*b` of the
mask union is exactly logical OR, and `update_active_mask` combines its
threshold mask with the binarized inflow mask through exactly this
expression. -/
theorem mask_union_logical_or :
    (∀ a b : ℚ, (a = 0 ∨ a = 1) → (b = 0 ∨ b = 1) →
        mask_union a b = if a = 1 ∨ b = 1 then 1 else 0)
  ∧ (∀ (ι : Type) (sdf : ι → ℚ) (effects : List ((ι → ℚ) → ℚ → (ι → ℚ)))
        (dt : ℚ) (x : ι),
        update_active_mask sdf effects dt x
          = mask_union (if sdf x < 0.5 * 1.0 then 1 else 0)
              (create_binary_mask (effects.foldl (fun g e => e g dt) fun _ => 0) 0.5 x)) := by
  constructor
  · rintro a b (rfl | rfl) (rfl | rfl) <;> norm_num [mask_union]
  · intro ι sdf effects dt x
    rfl

/-- Witness for claim C9 at the mask values 0 and 1. -/
theorem mask_union_logical_or_witness :
    ((0 : ℚ) = 0 ∨ (0 : ℚ) = 1) ∧ ((1 : ℚ) = 0 ∨ (1 : ℚ) = 1)
      ∧ mask_union 0 1 = if (0 : ℚ) = 1 ∨ (1 : ℚ) = 1 then 1 else 0 :=
  ⟨Or.inl rfl, Or.inr rfl, mask_union_logical_or.1 0 1 (Or.inl rfl) (Or.inr rfl)⟩

/-- One offset update never changes a cell of the surface band. -/
theorem sdf_sweep_step_frozen (res : List ℕ) (sm sg : List ℤ → ℝ) (dx : ℝ)
    (s buf : List ℤ → ℝ) (d : List ℤ) (x : List ℤ) (h : 0 < sm x) :
    sdf_sweep_step res sm sg dx s buf d x = buf x := by
  unfold sdf_sweep_step
  by_cases hz : (d.all fun z => z == 0) = true
  · rw [if_pos hz]
  · rw [if_neg hz]
    rw [if_neg]
    rintro ⟨-, hle⟩
    exact absurd hle (not_le.mpr h)

/-- Folding offset updates never changes a cell of the surface band. -/
theorem sdf_sweep_fold_frozen (res : List ℕ) (sm sg : List ℤ → ℝ) (dx : ℝ)
    (s : List ℤ → ℝ) (x : List ℤ) (h : 0 < sm x) (L : List (List ℤ)) :
    ∀ buf : List ℤ → ℝ, (L.foldl (sdf_sweep_step res sm sg dx s) buf) x = buf x := by
  induction L with
  | nil => intro buf; rfl
  | cons d L ih =>
    intro buf
    rw [List.foldl_cons, ih (sdf_sweep_step res sm sg dx s buf d),
        sdf_sweep_step_frozen res sm sg dx s buf d x h]

/-- A whole sweep never changes a cell of the surface band. -/
theorem sdf_sweep_frozen (res : List ℕ) (sm sg : List ℤ → ℝ) (dx : ℝ)
    (s : List ℤ → ℝ) (x : List ℤ) (h : 0 < sm x) :
    sdf_sweep res sm sg dx s x = s x :=
  sdf_sweep_fold_frozen res sm sg dx s x h (directions res.length) s

/-- Any number of sweeps never changes a cell of the surface band. -/
theorem sdf_sweep_iterate_frozen (res : List ℕ) (sm sg : List ℤ → ℝ) (dx : ℝ)
    (x : List ℤ) (h : 0 < sm x) :
    ∀ (n : ℕ) (s : List ℤ → ℝ), ((sdf_sweep res sm sg dx)^[n] s) x = s x := by
  intro n
  induction n with
  | zero => intro s; rfl
  | succ n ih =>
    intro s
    rw [Function.iterate_succ_apply, ih (sdf_sweep res sm sg dx s),
        sdf_sweep_frozen res sm sg dx s x h]

/-- Soundness of the offset fold: the buffered value is either the snapshot
value or the candidate of some non-zero offset, strictly smaller in
magnitude, accepted only outside the surface band. -/
theorem sdf_sweep_fold_sound (res : List ℕ) (sm sg : List ℤ → ℝ) (dx : ℝ)
    (s : List ℤ → ℝ) (x : List ℤ) (L : List (List ℤ))
    (hL : ∀ d ∈ L, d ∈ directions res.length) :
    ∀ buf : List ℤ → ℝ,
      (buf x = s x ∨ ∃ d ∈ directions res.length, (d.all fun z => z == 0) = false
          ∧ buf x = sweep_candidate res sg dx s d x ∧ |buf x| < |s x| ∧ sm x ≤ 0) →
      ((L.foldl (sdf_sweep_step res sm sg dx s) buf) x = s x
        ∨ ∃ d ∈ directions res.length, (d.all fun z => z == 0) = false
            ∧ (L.foldl (sdf_sweep_step res sm sg dx s) buf) x
                = sweep_candidate res sg dx s d x
            ∧ |(L.foldl (sdf_sweep_step res sm sg dx s) buf) x| < |s x| ∧ sm x ≤ 0) := by
  induction L with
  | nil => intro buf hbuf; exact hbuf
  | cons d L ih =>
    intro buf hbuf
    rw [List.foldl_cons]
    refine ih (fun e he => hL e (List.mem_cons_of_mem d he)) _ ?_
    unfold sdf_sweep_step
    by_cases hz : (d.all fun z => z == 0) = true
    · rw [if_pos hz]
      exact hbuf
    · rw [if_neg hz]
      by_cases hacc : |sweep_candidate res sg dx s d x| < |buf x| ∧ sm x ≤ 0
      · rw [if_pos hacc]
        refine Or.inr ⟨d, hL d (List.mem_cons_self d L), Bool.eq_false_iff.mpr hz, rfl, ?_,
          hacc.2⟩
        rcases hbuf with hb | ⟨d', -, -, -, hlt, -⟩
        · rw [hb] at hacc
          exact hacc.1
        · exact hacc.1.trans hlt
      · rw [if_neg hacc]
        exact hbuf

/-- Claim C3: `recompute_sdf` runs exactly `distance` relaxation sweeps
between initialization and clipping; a surface-band cell keeps its value
through any number of sweeps; and one sweep either leaves a cell unchanged or
stores the candidate `shifted_snapshot + dx*‖offset‖*sign` of some non-zero
neighbor offset, read from the same pre-sweep snapshot, strictly smaller in
magnitude, and only at cells outside the surface band. -/
theorem recompute_sdf_relaxation_structure (res : List ℕ) (active_mask sdf0 : List ℤ → ℝ)
    (velocity : List ℝ) (distance : ℕ) (dt dx : ℝ) :
    (recompute_sdf res sdf0 active_mask velocity distance dt dx
        = sdf_dissipation dt velocity (sdf_clip distance active_mask
            ((sdf_sweep res (create_surface_mask res active_mask)
                (sdf_signs active_mask) dx)^[distance]
              (sdf_init dx distance active_mask sdf0 res))))
  ∧ (∀ (sm sg s : List ℤ → ℝ) (x : List ℤ) (n : ℕ), 0 < sm x →
      ((sdf_sweep res sm sg dx)^[n] s) x = s x)
  ∧ (∀ (sm sg s : List ℤ → ℝ) (x : List ℤ),
      sdf_sweep res sm sg dx s x = s x
        ∨ ∃ d ∈ directions res.length, (d.all fun z => z == 0) = false
            ∧ sdf_sweep res sm sg dx s x = sweep_candidate res sg dx s d x
            ∧ |sdf_sweep res sm sg dx s x| < |s x| ∧ sm x ≤ 0) := by
  refine ⟨rfl, ?_, ?_⟩
  · intro sm sg s x n h
    exact sdf_sweep_iterate_frozen res sm sg dx x h n s
  · intro sm sg s x
    exact sdf_sweep_fold_sound res sm sg dx s x (directions res.length)
      (fun d hd => hd) s (Or.inl rfl)

/-- Witness for claim C3: a surface-band cell keeps its value 5 through two
sweeps on a concrete one-cell grid. -/
theorem recompute_sdf_relaxation_structure_witness :
    ((sdf_sweep [1] (fun _ => 1) (fun _ => 0) 1)^[2] fun _ => 5) [0] = 5 :=
  (recompute_sdf_relaxation_structure [1] (fun _ => 0) (fun _ => 0) [] 0 0 1).2.1
    (fun _ => 1) (fun _ => 0) (fun _ => 5) [0] 2 (by norm_num)

/-- Claim C4: outside the surface band the working field starts at
`±2·(distance+1)`, negative where the active mask is 1 and positive where it
is 0; surface-band cells keep the old SDF value except that a cell active
under the new mask whose old value is at least `0.5·dx` is reset to 0. -/
theorem sdf_init_band_and_default (res : List ℕ) (active_mask sdf0 : List ℤ → ℝ)
    (dx : ℝ) (distance : ℕ) (x : List ℤ) :
    (¬ 1 ≤ create_surface_mask res active_mask x →
        (active_mask x = 1 →
          sdf_init dx distance active_mask sdf0 res x = -(2 * ((distance : ℝ) + 1)))
      ∧ (active_mask x = 0 →
          sdf_init dx distance active_mask sdf0 res x = 2 * ((distance : ℝ) + 1)))
  ∧ (1 ≤ create_surface_mask res active_mask x →
        sdf_init dx distance active_mask sdf0 res x
          = if 1 ≤ active_mask x ∧ 0.5 * dx ≤ sdf0 x then 0 else sdf0 x) := by
  constructor
  · intro hnb
    constructor
    · intro h1
      unfold sdf_init
      rw [if_neg hnb]
      unfold sdf_signs
      rw [h1]
      norm_num
    · intro h0
      unfold sdf_init
      rw [if_neg hnb]
      unfold sdf_signs
      rw [h0]
      norm_num
  · intro hb
    unfold sdf_init
    rw [if_pos hb]
    by_cases hc : 1 ≤ active_mask x ∧ 0.5 * dx ≤ sdf0 x
    · rw [if_pos hc, if_pos hc]
      norm_num
    · rw [if_neg hc, if_neg hc]

/-- Witness for claim C4 at a surface-band cell that is active under the new
mask with an old SDF value of 3 ≥ 0.5·dx. -/
theorem sdf_init_band_and_default_witness :
    (1 : ℝ) ≤ create_surface_mask [2] aC4 [0]
      ∧ sdf_init 1 5 aC4 sdfC4 [2] [0]
          = if 1 ≤ aC4 [0] ∧ 0.5 * 1 ≤ sdfC4 [0] then 0 else sdfC4 [0] := by
  have hband : (1 : ℝ) ≤ create_surface_mask [2] aC4 [0] := by
    have hex : ∃ d ∈ axis_offsets ([2] : List ℕ).length,
        inBoundsL [2] (List.zipWith (fun a b => a + b) [0] d)
          ∧ aC4 (List.zipWith (fun a b => a + b) [0] d) ≠ aC4 [0] := by
      refine ⟨[1], by decide, by decide, ?_⟩
      norm_num [aC4]
    unfold create_surface_mask
    rw [if_pos hex]
  exact ⟨hband, (sdf_init_band_and_default [2] aC4 sdfC4 1 5 [0]).2 hband⟩

/-- The flattened-tensor maximum of absolute values is nonnegative. -/
theorem maxAbs_nonneg (v : List ℝ) : 0 ≤ maxAbs v := by
  unfold maxAbs
  induction v with
  | nil => simp
  | cons a t ih =>
    simp only [List.map_cons, List.foldr_cons]
    exact le_max_of_le_right ih

/-- Claim C5 (amended): for a binary active mask the clipped field has
magnitude at most `distance` at every cell, but the field `recompute_sdf`
returns has the uniform dissipation `dt·max|velocity|·0.01` subtracted after
the clipping, so the returned field is only bounded by
`distance + dt·max|velocity|·0.01`. -/
theorem recompute_sdf_magnitude_bound (res : List ℕ) (sdf0 active_mask : List ℤ → ℝ)
    (velocity : List ℝ) (distance : ℕ) (dt dx : ℝ)
    (hbin : ∀ y, active_mask y = 0 ∨ active_mask y = 1) (hdt : 0 ≤ dt) :
    (∀ (s : List ℤ → ℝ) (x : List ℤ),
        |sdf_clip distance active_mask s x| ≤ (distance : ℝ))
  ∧ (∀ x : List ℤ, |recompute_sdf res sdf0 active_mask velocity distance dt dx x|
        ≤ (distance : ℝ) + dt * maxAbs velocity * 0.01) := by
  have hclip : ∀ (s : List ℤ → ℝ) (x : List ℤ),
      |sdf_clip distance active_mask s x| ≤ (distance : ℝ) := by
    intro s x
    unfold sdf_clip
    by_cases h : |s x| < (distance : ℝ)
    · rw [if_pos h]
      exact le_of_lt h
    · rw [if_neg h]
      rcases hbin x with h0 | h1
      · rw [h0]
        rw [show -(distance : ℝ) * (2 * 0 - 1) = (distance : ℝ) by ring]
        rw [abs_of_nonneg (Nat.cast_nonneg distance)]
      · rw [h1]
        rw [show -(distance : ℝ) * (2 * 1 - 1) = -(distance : ℝ) by ring]
        rw [abs_neg, abs_of_nonneg (Nat.cast_nonneg distance)]
  refine ⟨hclip, ?_⟩
  intro x
  have hδ : 0 ≤ dt * maxAbs velocity * 0.01 :=
    mul_nonneg (mul_nonneg hdt (maxAbs_nonneg velocity)) (by norm_num)
  unfold recompute_sdf sdf_dissipation
  have htri : ∀ a b : ℝ, |a - b| ≤ |a| + |b| := by
    intro a b
    calc |a - b| = |a + -b| := by ring_nf
    _ ≤ |a| + |-b| := abs_add a (-b)
    _ = |a| + |b| := by rw [abs_neg]
  refine le_trans (htri _ _) ?_
  rw [abs_of_nonneg hδ]
  exact add_le_add (hclip _ x) le_rfl

/-- Witness for the amended claim C5 on a concrete one-cell grid inside the
fluid. -/
theorem recompute_sdf_magnitude_bound_witness :
    |recompute_sdf [1] (fun _ => -4) (fun _ => 1) [100] 1 1 1 [0]|
      ≤ ((1 : ℕ) : ℝ) + 1 * maxAbs [100] * 0.01 :=
  (recompute_sdf_magnitude_bound [1] (fun _ => -4) (fun _ => 1) [100] 1 1 1
    (fun _ => Or.inr rfl) (by norm_num)).2 [0]

/-- Claim C5, counterexample: on a one-cell 1-D grid entirely inside the
fluid, with `distance = 1`, `dt = dx = 1` and a velocity value of 100, the
field `recompute_sdf` returns holds `-2` at the cell, of magnitude greater
than `max_distance = 1`: the dissipation is subtracted after the clipping, so
the bound does not hold for the returned field. -/
theorem recompute_sdf_exceeds_max_distance :
    (1 : ℝ) < |recompute_sdf [1] (fun _ => -4) (fun _ => 1) [100] 1 1 1 [0]| := by
  have hsm : create_surface_mask [1] (fun _ => (1 : ℝ)) = fun _ => 0 := by
    funext y
    unfold create_surface_mask
    rw [if_neg]
    rintro ⟨d, -, -, hne⟩
    exact hne rfl
  have hsg : sdf_signs (fun _ => (1 : ℝ)) = fun _ => -1 := by
    funext y
    unfold sdf_signs
    norm_num
  have hinit : sdf_init 1 1 (fun _ => (1 : ℝ)) (fun _ => -4) [1] = fun _ => -4 := by
    funext y
    unfold sdf_init
    simp only [hsm, hsg]
    rw [if_neg (by norm_num)]
    norm_num
  have hcand : ∀ d y : List ℤ, (d.map fun z => ((z : ℝ)) ^ 2).sum = 1 →
      sweep_candidate [1] (fun _ => -1) 1 (fun _ => -4) d y = -5 := by
    intro d y hd
    unfold sweep_candidate shiftRead
    rw [hd, Real.sqrt_one]
    norm_num
  have hone : ∀ d : List ℤ, d = [-1] ∨ d = [1] → (d.map fun z => ((z : ℝ)) ^ 2).sum = 1 := by
    rintro d (rfl | rfl) <;> norm_num
  have hstepd : ∀ d : List ℤ, d = [-1] ∨ d = [1] →
      sdf_sweep_step [1] (fun _ => (0 : ℝ)) (fun _ => -1) 1 (fun _ => -4)
        (fun _ => -4) d = fun _ => -4 := by
    intro d hd
    have hz : (d.all fun z => z == 0) = false := by
      rcases hd with rfl | rfl <;> rfl
    unfold sdf_sweep_step
    rw [if_neg (by simp [hz])]
    funext y
    split
    next hcond =>
      exfalso
      rw [hcand d y (hone d hd)] at hcond
      norm_num at hcond
    next => rfl
  have hzero : sdf_sweep_step [1] (fun _ => (0 : ℝ)) (fun _ => -1) 1 (fun _ => -4)
      (fun _ => -4) [0] = fun _ => -4 := by
    simp [sdf_sweep_step]
  have hsweep : sdf_sweep [1] (fun _ => (0 : ℝ)) (fun _ => -1) 1 (fun _ => -4)
      = fun _ => -4 := by
    unfold sdf_sweep
    rw [show directions ([1] : List ℕ).length = [[-1], [0], [1]] from rfl]
    rw [List.foldl_cons, hstepd [-1] (Or.inl rfl), List.foldl_cons, hzero,
        List.foldl_cons, hstepd [1] (Or.inr rfl), List.foldl_nil]
  unfold recompute_sdf
  rw [hsm, hsg, hinit, Function.iterate_one, hsweep]
  unfold sdf_dissipation sdf_clip maxAbs
  rw [if_neg (by norm_num)]
  norm_num [max_def]
